import Mathlib

/-!
Verification of the express-jobly repository core logic: the partial-update
SQL compiler (`sqlForPartialUpdate`), the filtered finders for jobs and
companies, the existence-checked mutations of the Job model, and the
GET /companies request handler.  JavaScript objects are embedded as
association lists that keep their iteration order; JavaScript numbers
appearing in query handling are embedded as an explicit type with a NaN
element; fallible operations return `Except`.
-/

/-- A JavaScript value as it flows through the update compiler: the compiler
treats values opaquely, so we only need enough constructors to name concrete
values in examples. -/
inductive JsValue
  | str (s : String)
  | num (n : Int)
  | bool (b : Bool)
  | null
deriving DecidableEq, Repr

/-- The error taxonomy of the repository (`expressError`): the update
compiler throws `BadRequestError`, the models throw `NotFoundError`. -/
inductive ApiError
  | badRequest (msg : String)
  | notFound (msg : String)
deriving DecidableEq, Repr

/-- First-match lookup in an association list, embedding JavaScript
property access `obj[key]` (objects cannot hold duplicate keys, so first
match equals the unique match). `none` embeds `undefined`. -/
def lookupStr : List (String × String) → String → Option String
  | [], _ => none
  | (k, v) :: rest, key => if k = key then some v else lookupStr rest key

/-- Column-name resolution of `sqlForPartialUpdate`, embedding the
expression `jsToSql[colName] || colName`: a missing entry (`undefined`) and
an entry whose value is a falsy string (only `""` among strings) both fall
back to `colName`. -/
def resolveCol (jsToSql : List (String × String)) (colName : String) : String :=
  match lookupStr jsToSql colName with
  | some t => if t = "" then colName else t
  | none => colName

/-- Embedding of `sqlForPartialUpdate` from the utility module: extracts
the keys of `dataToUpdate` in iteration order, fails with
`BadRequestError("No data")` when there are none, otherwise builds one
`"<column>"=$<idx+1>` assignment per key (resolving the column through
`jsToSql`), joins them with `", "`, and pairs the result with the values of
`dataToUpdate` in the same order. -/
def sqlForPartialUpdate (dataToUpdate : List (String × JsValue))
    (jsToSql : List (String × String)) :
    Except ApiError (String × List JsValue) :=
  let keys := dataToUpdate.map Prod.fst
  if keys.length = 0 then Except.error (ApiError.badRequest "No data")
  else
    let cols := keys.mapIdx fun idx colName =>
      "\"" ++ resolveCol jsToSql colName ++ "\"=$" ++ toString (idx + 1)
    Except.ok (String.intercalate ", " cols, dataToUpdate.map Prod.snd)

/-- The multiple-item example of the utility test suite, checked against
the embedding: three fields, two of them translated, compile to
placeholders 1..3 with the values in input order. -/
theorem sqlForPartialUpdate_multi_example :
    sqlForPartialUpdate
      [("firstName", JsValue.str "Test"), ("lastName", JsValue.str "Tester"),
       ("age", JsValue.num 30)]
      [("firstName", "first_name"), ("lastName", "last_name")] =
    Except.ok ("\"first_name\"=$1, \"last_name\"=$2, \"age\"=$3",
      [JsValue.str "Test", JsValue.str "Tester", JsValue.num 30]) := rfl

/-- Column-name resolution exactly as the spec words it: "if a field has an
entry in the translation mapping, use the translated name; otherwise use the
field name unchanged".  Stated for comparison against `resolveCol`, which
embeds the source expression `jsToSql[colName] || colName`. -/
def specResolveCol (jsToSql : List (String × String)) (colName : String) :
    String :=
  match lookupStr jsToSql colName with
  | some t => t
  | none => colName

/-- C1: for every non-empty update mapping, `sqlForPartialUpdate` succeeds
and returns a `setCols` string that is the comma-join of exactly one
assignment per input key, where the i-th assignment (0-based) names the
resolved column of the i-th key and the placeholder index i+1 (so the
placeholder indices are exactly 1..n in input iteration order), and the
values list is the input values in the same order, so the i-th placeholder
binds the i-th value. -/
theorem sqlForPartialUpdate_placeholders
    (dataToUpdate : List (String × JsValue)) (jsToSql : List (String × String))
    (h : dataToUpdate ≠ []) :
    ∃ cols : List String,
      sqlForPartialUpdate dataToUpdate jsToSql =
        Except.ok (String.intercalate ", " cols, dataToUpdate.map Prod.snd) ∧
      cols.length = dataToUpdate.length ∧
      ∀ i, i < dataToUpdate.length →
        cols.getD i "" =
          "\"" ++ resolveCol jsToSql ((dataToUpdate.map Prod.fst).getD i "")
            ++ "\"=$" ++ toString (i + 1) := by
  refine ⟨(dataToUpdate.map Prod.fst).mapIdx fun idx colName =>
    "\"" ++ resolveCol jsToSql colName ++ "\"=$" ++ toString (idx + 1),
    ?_, ?_, ?_⟩
  · unfold sqlForPartialUpdate
    rw [if_neg]
    simp [h]
  · rw [List.length_mapIdx, List.length_map]
  · intro i hi
    have hi' : i < (dataToUpdate.map Prod.fst).length := by
      simpa using hi
    have hi'' : i < ((dataToUpdate.map Prod.fst).mapIdx fun idx colName =>
        "\"" ++ resolveCol jsToSql colName ++ "\"=$" ++ toString (idx + 1)).length := by
      rw [List.length_mapIdx]; exact hi'
    rw [List.getD_eq_getElem _ _ hi'', List.getD_eq_getElem _ _ hi']
    simp

/-- Witness for C1 at a concrete input: a two-field mapping compiles to two
assignments with placeholders 1 and 2. -/
theorem sqlForPartialUpdate_placeholders_witness :
    ∃ cols : List String,
      sqlForPartialUpdate [("firstName", JsValue.str "A"), ("age", JsValue.num 7)]
          [("firstName", "first_name")] =
        Except.ok (String.intercalate ", " cols,
          [JsValue.str "A", JsValue.num 7]) ∧
      cols.length = 2 ∧
      ∀ i, i < 2 →
        cols.getD i "" =
          "\"" ++ resolveCol [("firstName", "first_name")]
              (([("firstName", JsValue.str "A"), ("age", JsValue.num 7)].map
                (Prod.fst (α := String) (β := JsValue))).getD i "")
            ++ "\"=$" ++ toString (i + 1) :=
  sqlForPartialUpdate_placeholders
    [("firstName", JsValue.str "A"), ("age", JsValue.num 7)]
    [("firstName", "first_name")] (by simp)

/-- C2: compiling an empty update mapping always fails with
`BadRequestError("No data")`, whatever the translation mapping; no result
is ever returned for empty input. -/
theorem sqlForPartialUpdate_empty (jsToSql : List (String × String)) :
    sqlForPartialUpdate [] jsToSql =
      Except.error (ApiError.badRequest "No data") := rfl

/-- C3 counterexample: the rule "if a field has an entry in the translation
mapping, use the translated name" fails when the entry maps the field to the
empty string: the translation mapping [("age", "")] has an entry for "age",
yet the code resolves "age" to itself, not to the translated name "". -/
theorem resolveCol_spec_counterexample :
    lookupStr [("age", "")] "age" = some "" ∧
    resolveCol [("age", "")] "age" ≠ specResolveCol [("age", "")] "age" := by
  constructor
  · rfl
  · decide

/-- C3 amended: if a field has an entry in the translation mapping whose
translated name is truthy (non-empty), the translated name is used;
if it has no entry, the field name is used unchanged; and if it has an
entry with a falsy translated name (the empty string), the field name is
likewise used unchanged.  In particular, with translation mapping
[("firstName", "first_name")] and input [("firstName", "Test"),
("age", 30)], the output has setCols "first_name"=$1, "age"=$2 (quoted)
and values ["Test", 30]. -/
theorem resolveCol_resolution_amended :
    (∀ jsToSql colName t, lookupStr jsToSql colName = some t → t ≠ "" →
        resolveCol jsToSql colName = t) ∧
    (∀ jsToSql colName, lookupStr jsToSql colName = none →
        resolveCol jsToSql colName = colName) ∧
    (∀ jsToSql colName, lookupStr jsToSql colName = some "" →
        resolveCol jsToSql colName = colName) ∧
    sqlForPartialUpdate [("firstName", JsValue.str "Test"), ("age", JsValue.num 30)]
        [("firstName", "first_name")] =
      Except.ok ("\"first_name\"=$1, \"age\"=$2",
        [JsValue.str "Test", JsValue.num 30]) := by
  refine ⟨?_, ?_, ?_, rfl⟩
  · intro jsToSql colName t hl ht
    unfold resolveCol
    rw [hl]
    simp [ht]
  · intro jsToSql colName hl
    unfold resolveCol
    rw [hl]
  · intro jsToSql colName hl
    unfold resolveCol
    rw [hl]
    simp

/-- Witness for the amended C3: the truthy-entry branch and the
falsy-entry branch, each at a concrete translation mapping. -/
theorem resolveCol_resolution_amended_witness :
    resolveCol [("firstName", "first_name")] "firstName" = "first_name" ∧
    resolveCol [("lastName", "")] "lastName" = "lastName" :=
  ⟨resolveCol_resolution_amended.1 [("firstName", "first_name")] "firstName"
      "first_name" rfl (by decide),
    resolveCol_resolution_amended.2.2.1 [("lastName", "")] "lastName" rfl⟩

/-- C9: when the translation mapping maps a field to a falsy string value
(the empty string), the compiler silently falls back to the untranslated
field name, because resolution uses `jsToSql[colName] || colName`; at the
compiler level, updating field "age" under translation [("age", "")]
produces the assignment "age"=$1 with the field name, not the mapped value. -/
theorem resolveCol_falsy_fallback :
    (∀ jsToSql colName, lookupStr jsToSql colName = some "" →
        resolveCol jsToSql colName = colName) ∧
    sqlForPartialUpdate [("age", JsValue.num 30)] [("age", "")] =
      Except.ok ("\"age\"=$1", [JsValue.num 30]) := by
  refine ⟨?_, rfl⟩
  intro jsToSql colName hl
  unfold resolveCol
  rw [hl]
  simp

/-- Witness for C9: the falsy-entry fallback at a concrete translation
mapping. -/
theorem resolveCol_falsy_fallback_witness :
    resolveCol [("age", "")] "age" = "age" :=
  resolveCol_falsy_fallback.1 [("age", "")] "age" rfl

/-- A JavaScript number as produced by `Number(queryString)`: either NaN
(for non-numeric input) or a numeric value (embedded as a rational). -/
inductive JsNum
  | nan
  | num (q : ℚ)
deriving DecidableEq, Repr

/-- The JavaScript strict-greater comparison on numbers: numeric against
numeric compares the values; every comparison involving NaN is false. -/
def jsGt : JsNum → JsNum → Bool
  | JsNum.num a, JsNum.num b => a > b
  | _, _ => false

/-- A company row as stored: handle, name, description, employee count
(nullable) and logo URL (nullable). -/
structure CompanyRow where
  handle : String
  name : String
  description : String
  numEmployees : Option Int
  logoUrl : Option String
deriving DecidableEq, Repr

/-- Case-insensitive containment, embedding the SQL
`name ILIKE concat percent needle percent` predicate of the finders. -/
def containsCI (haystack needle : String) : Bool :=
  decide (List.IsInfix needle.toLower.toList haystack.toLower.toList)

/-- Modelled from the spec: the row predicate of `Company.findAll`, which is
not under src (only its caller, the GET /companies route, and the spec
describe it).  Each present filter contributes one conjunct: name performs
case-insensitive containment, the employee bounds perform inclusive numeric
comparison against the stored employee count (a null count satisfies no
range predicate, per SQL comparison semantics); an absent filter
contributes nothing. -/
def companyMatches (name : Option String) (minE maxE : Option ℚ)
    (r : CompanyRow) : Bool :=
  (match name with
   | some n => containsCI r.name n
   | none => true) &&
  (match minE with
   | some m => match r.numEmployees with
     | some e => decide (m ≤ (e : ℚ))
     | none => false
   | none => true) &&
  (match maxE with
   | some m => match r.numEmployees with
     | some e => decide ((e : ℚ) ≤ m)
     | none => false
   | none => true)

/-- Modelled from the spec: `Company.findAll` (not under src) returns the
rows of storage satisfying the conjunction of the present filters, keeping
storage order; it performs no bound check of its own. -/
def companyFindAll (rows : List CompanyRow) (name : Option String)
    (minE maxE : Option ℚ) : List CompanyRow :=
  rows.filter (companyMatches name minE maxE)

/-- The arguments with which the GET /companies handler invokes
`Company.findAll`: the raw name filter and the converted numeric bounds. -/
structure CompaniesFindAllCall where
  name : Option String
  minEmployees : Option JsNum
  maxEmployees : Option JsNum
deriving DecidableEq, Repr

/-- The conversion `v ? Number(v) : undefined` the handler applies to each
optional employee-bound query value: an absent value and the (falsy) empty
string become `undefined`, every other string goes through `Number`. -/
def convQueryNum (Number : String → JsNum) : Option String → Option JsNum
  | some s => if s = "" then none else some (Number s)
  | none => none

/-- Embedding of the GET /companies route handler, parameterized by the
host conversion `Number`: it converts the two bound parameters with
`v ? Number(v) : undefined`, throws
BadRequestError("minEmployees must be less than maxEmployees") when both
converted bounds are defined and the first strictly exceeds the second
under JavaScript comparison, and otherwise returns the Company.findAll
invocation it performs. -/
def getCompaniesHandler (Number : String → JsNum) (name : Option String)
    (minEmployees maxEmployees : Option String) :
    Except ApiError CompaniesFindAllCall :=
  let minE := convQueryNum Number minEmployees
  let maxE := convQueryNum Number maxEmployees
  if (match minE, maxE with
      | some a, some b => jsGt a b
      | _, _ => false)
  then Except.error
    (ApiError.badRequest "minEmployees must be less than maxEmployees")
  else Except.ok ⟨name, minE, maxE⟩

/-- C8: whenever both employee bounds are supplied with numeric values and
the minimum strictly exceeds the maximum, the GET /companies handler throws
BadRequest instead of producing a findAll invocation; the finder itself
performs no such bound check — on those same bounds it still returns
exactly the predicate-matching rows rather than failing. -/
theorem getCompaniesHandler_min_gt_max (Number : String → JsNum)
    (name nm : Option String) (minS maxS : String) (a b : ℚ)
    (rows : List CompanyRow)
    (hminne : minS ≠ "") (hmaxne : maxS ≠ "")
    (hmin : Number minS = JsNum.num a) (hmax : Number maxS = JsNum.num b)
    (hab : b < a) :
    getCompaniesHandler Number name (some minS) (some maxS) =
      Except.error
        (ApiError.badRequest "minEmployees must be less than maxEmployees") ∧
    ∀ r, r ∈ companyFindAll rows nm (some a) (some b) ↔
      r ∈ rows ∧ companyMatches nm (some a) (some b) r = true := by
  constructor
  · unfold getCompaniesHandler convQueryNum
    simp only [if_neg hminne, if_neg hmaxne, hmin, hmax]
    rw [if_pos]
    simp [jsGt, hab]
  · intro r
    unfold companyFindAll
    exact List.mem_filter

/-- Witness for C8 at a concrete request: min 5, max 3 under an integer
Number conversion. -/
theorem getCompaniesHandler_min_gt_max_witness :
    getCompaniesHandler
        (fun s => if s = "5" then JsNum.num 5
                  else if s = "3" then JsNum.num 3 else JsNum.nan)
        (some "net") (some "5") (some "3") =
      Except.error
        (ApiError.badRequest "minEmployees must be less than maxEmployees") ∧
    ∀ r, r ∈ companyFindAll [] (some "net") (some 5) (some 3) ↔
      r ∈ ([] : List CompanyRow) ∧
        companyMatches (some "net") (some 5) (some 3) r = true :=
  getCompaniesHandler_min_gt_max
    (fun s => if s = "5" then JsNum.num 5
              else if s = "3" then JsNum.num 3 else JsNum.nan)
    (some "net") (some "net") "5" "3" 5 3 []
    (by decide) (by decide) rfl rfl (by norm_num)

/-- C10: a non-empty employee-bound query value that `Number` converts to
NaN slips past the min-greater-than-max check, because every JavaScript
comparison with NaN is false; the handler then invokes Company.findAll
with the NaN bound instead of rejecting the request.  Stated for a NaN
minimum against any maximum parameter and for a NaN maximum against any
minimum parameter. -/
theorem getCompaniesHandler_nan_bypass (Number : String → JsNum)
    (name : Option String) (s : String) (minP maxP : Option String)
    (x y : JsNum)
    (hne : s ≠ "") (hnan : Number s = JsNum.nan) :
    jsGt JsNum.nan x = false ∧
    jsGt y JsNum.nan = false ∧
    getCompaniesHandler Number name (some s) maxP =
      Except.ok ⟨name, some JsNum.nan, convQueryNum Number maxP⟩ ∧
    getCompaniesHandler Number name minP (some s) =
      Except.ok ⟨name, convQueryNum Number minP, some JsNum.nan⟩ := by
  refine ⟨rfl, ?_, ?_, ?_⟩
  · cases y <;> rfl
  · unfold getCompaniesHandler
    have hc : convQueryNum Number (some s) = some JsNum.nan := by
      simp only [convQueryNum]
      rw [if_neg hne, hnan]
    rw [hc, if_neg]
    cases convQueryNum Number maxP <;> simp [jsGt]
  · unfold getCompaniesHandler
    have hc : convQueryNum Number (some s) = some JsNum.nan := by
      simp only [convQueryNum]
      rw [if_neg hne, hnan]
    rw [hc, if_neg]
    cases convQueryNum Number minP <;> simp [jsGt]

/-- Witness for C10 at a concrete request: minEmployees "abc" converts to
NaN and the handler invokes the finder instead of rejecting. -/
theorem getCompaniesHandler_nan_bypass_witness :
    jsGt JsNum.nan (JsNum.num 3) = false ∧
    jsGt (JsNum.num 3) JsNum.nan = false ∧
    getCompaniesHandler (fun _ => JsNum.nan) none (some "abc") (some "") =
      Except.ok ⟨none, some JsNum.nan,
        convQueryNum (fun _ => JsNum.nan) (some "")⟩ ∧
    getCompaniesHandler (fun _ => JsNum.nan) none (some "") (some "abc") =
      Except.ok ⟨none, convQueryNum (fun _ => JsNum.nan) (some ""),
        some JsNum.nan⟩ :=
  getCompaniesHandler_nan_bypass (fun _ => JsNum.nan) none "abc"
    (some "") (some "") (JsNum.num 3) (JsNum.num 3) (by decide) rfl

/-- A job row as stored: generated integer id, title, salary (nullable),
equity (nullable decimal in storage, embedded numerically) and the owning
company handle. -/
structure JobRow where
  id : Int
  title : String
  salary : Option Int
  equity : Option ℚ
  companyHandle : String
deriving DecidableEq, Repr

/-- Modelled from the spec: the row predicate of `Job.findAll`, which is
not under src (only its tests and the spec describe it).  Each present
filter contributes one conjunct: title performs case-insensitive
containment, minSalary performs inclusive numeric comparison against the
stored salary (a null salary satisfies no range predicate, per SQL
comparison semantics), and hasEquity true requires the equity to be
non-null and strictly greater than zero; hasEquity false and every absent
filter contribute nothing. -/
def jobMatches (title : Option String) (minSalary : Option ℚ)
    (hasEquity : Option Bool) (r : JobRow) : Bool :=
  (match title with
   | some t => containsCI r.title t
   | none => true) &&
  (match minSalary with
   | some m => match r.salary with
     | some s => decide (m ≤ (s : ℚ))
     | none => false
   | none => true) &&
  (match hasEquity with
   | some true => match r.equity with
     | some e => decide (0 < e)
     | none => false
   | some false => true
   | none => true)

/-- Modelled from the spec: `Job.findAll` (not under src) returns the rows
of storage satisfying the conjunction of the present filters, keeping
storage order. -/
def jobFindAll (rows : List JobRow) (title : Option String)
    (minSalary : Option ℚ) (hasEquity : Option Bool) : List JobRow :=
  rows.filter (jobMatches title minSalary hasEquity)

/-- First row of storage with the given id, embedding the
`WHERE id = $1` lookup of the Job model (`none` when no row matches). -/
def findJob : List JobRow → Int → Option JobRow
  | [], _ => none
  | r :: rest, i => if r.id = i then some r else findJob rest i

/-- A partial update payload for a job: an outer `none` means the field is
not supplied (it must retain its stored value); `some none` on a nullable
field is an explicit null; `some (some v)` supplies a new value.  The id
and company handle are not updatable. -/
structure JobUpdateData where
  title : Option String
  salary : Option (Option Int)
  equity : Option (Option ℚ)
deriving DecidableEq, Repr

/-- A payload with no supplied field, which the update compiler rejects. -/
def JobUpdateData.isEmpty (u : JobUpdateData) : Bool :=
  u.title = none && u.salary = none && u.equity = none

/-- Application of a partial payload to a stored row: each supplied field
replaces the stored value (an explicit null clears it), each unsupplied
field retains the stored value; id and company handle never change. -/
def applyJobUpdate (u : JobUpdateData) (r : JobRow) : JobRow :=
  { r with
    title := u.title.getD r.title
    salary := u.salary.getD r.salary
    equity := u.equity.getD r.equity }

/-- Modelled from the spec: `Job.get` (not under src): looks the id up and
fails with NotFound when absent; storage is never changed. -/
def jobGet (store : List JobRow) (i : Int) :
    Except ApiError JobRow × List JobRow :=
  match findJob store i with
  | none => (Except.error (ApiError.notFound ("No job: " ++ toString i)), store)
  | some r => (Except.ok r, store)

/-- Modelled from the spec: `Job.update` (not under src): compiles the
payload first (so an empty payload fails BadRequest, as in 4.1), then looks
the id up, failing with NotFound when absent before any mutation; otherwise
it stores the row with the supplied fields applied and returns the
post-update row as read back from storage. -/
def jobUpdate (store : List JobRow) (i : Int) (u : JobUpdateData) :
    Except ApiError JobRow × List JobRow :=
  if u.isEmpty then (Except.error (ApiError.badRequest "No data"), store)
  else
    match findJob store i with
    | none =>
      (Except.error (ApiError.notFound ("No job: " ++ toString i)), store)
    | some r =>
      let r' := applyJobUpdate u r
      (Except.ok r', store.map fun x => if x.id = i then r' else x)

/-- Modelled from the spec: `Job.remove` (not under src): looks the id up,
failing with NotFound when absent before any mutation; otherwise it deletes
the matching rows. -/
def jobRemove (store : List JobRow) (i : Int) :
    Except ApiError Unit × List JobRow :=
  match findJob store i with
  | none => (Except.error (ApiError.notFound ("No job: " ++ toString i)), store)
  | some _ => (Except.ok (), store.filter fun r => !(r.id == i))

theorem findJob_id_eq {store : List JobRow} {i : Int} {r : JobRow}
    (h : findJob store i = some r) : r.id = i := by
  induction store with
  | nil => simp [findJob] at h
  | cons x rest ih =>
    unfold findJob at h
    by_cases hx : x.id = i
    · rw [if_pos hx] at h
      cases h
      exact hx
    · rw [if_neg hx] at h
      exact ih h

theorem findJob_replace {store : List JobRow} {i : Int} {r : JobRow}
    (r' : JobRow) (h : findJob store i = some r) (hr' : r'.id = i) :
    findJob (store.map fun x => if x.id = i then r' else x) i = some r' := by
  induction store with
  | nil => simp [findJob] at h
  | cons x rest ih =>
    unfold findJob at h
    by_cases hx : x.id = i
    · simp only [List.map_cons, if_pos hx]
      unfold findJob
      rw [if_pos hr']
    · rw [if_neg hx] at h
      simp only [List.map_cons, if_neg hx]
      unfold findJob
      rw [if_neg hx]
      exact ih h

/-- C6: a finder called with no filters returns every row; each present
filter contributes exactly one conjoined predicate, so a single filter
returns exactly the rows matching that predicate, and two filters return
the rows belonging to both single-filter result sets (their intersection).
Stated for the jobs finder (title, minSalary) and the companies finder
(name, employee bounds). -/
theorem findAll_filter_conjunction (jrows : List JobRow)
    (crows : List CompanyRow) (t : String) (m : ℚ) (nm : String) (a b : ℚ) :
    jobFindAll jrows none none none = jrows ∧
    companyFindAll crows none none none = crows ∧
    jobFindAll jrows (some t) none none =
      jrows.filter (fun r => containsCI r.title t) ∧
    jobFindAll jrows none (some m) none =
      jrows.filter (fun r => match r.salary with
        | some s => decide (m ≤ (s : ℚ))
        | none => false) ∧
    companyFindAll crows (some nm) none none =
      crows.filter (fun r => containsCI r.name nm) ∧
    (∀ r, r ∈ jobFindAll jrows (some t) (some m) none ↔
      r ∈ jobFindAll jrows (some t) none none ∧
      r ∈ jobFindAll jrows none (some m) none) ∧
    (∀ r, r ∈ companyFindAll crows none (some a) (some b) ↔
      r ∈ companyFindAll crows none (some a) none ∧
      r ∈ companyFindAll crows none none (some b)) := by
  refine ⟨?_, ?_, ?_, ?_, ?_, ?_, ?_⟩
  · unfold jobFindAll
    conv_lhs => rw [show jobMatches none none none = fun _ => true by rfl]
    exact List.filter_true jrows
  · unfold companyFindAll
    conv_lhs => rw [show companyMatches none none none = fun _ => true by rfl]
    exact List.filter_true crows
  · unfold jobFindAll
    apply List.filter_congr
    intro r _
    simp [jobMatches]
  · unfold jobFindAll
    apply List.filter_congr
    intro r _
    simp [jobMatches]
  · unfold companyFindAll
    apply List.filter_congr
    intro r _
    simp [companyMatches]
  · intro r
    simp only [jobFindAll, List.mem_filter, jobMatches, Bool.and_eq_true,
      Bool.and_true, Bool.true_and]
    tauto
  · intro r
    simp only [companyFindAll, List.mem_filter, companyMatches,
      Bool.and_eq_true, Bool.and_true, Bool.true_and]
    tauto

/-- Witness for C6 at concrete rows and filters: one job row matching the
title filter but not the salary filter, one company row. -/
theorem findAll_filter_conjunction_witness :
    jobFindAll [JobRow.mk 1 "j1" (some 100) none "c1"] none none none =
      [JobRow.mk 1 "j1" (some 100) none "c1"] ∧
    companyFindAll [CompanyRow.mk "c1" "C1" "d" (some 10) none] none none
        none = [CompanyRow.mk "c1" "C1" "d" (some 10) none] ∧
    jobFindAll [JobRow.mk 1 "j1" (some 100) none "c1"] (some "j") none none =
      [JobRow.mk 1 "j1" (some 100) none "c1"].filter
        (fun r => containsCI r.title "j") ∧
    jobFindAll [JobRow.mk 1 "j1" (some 100) none "c1"] none (some 200) none =
      [JobRow.mk 1 "j1" (some 100) none "c1"].filter
        (fun r => match r.salary with
          | some s => decide ((200 : ℚ) ≤ (s : ℚ))
          | none => false) ∧
    companyFindAll [CompanyRow.mk "c1" "C1" "d" (some 10) none] (some "c")
        none none =
      [CompanyRow.mk "c1" "C1" "d" (some 10) none].filter
        (fun r => containsCI r.name "c") ∧
    (∀ r, r ∈ jobFindAll [JobRow.mk 1 "j1" (some 100) none "c1"] (some "j")
        (some 200) none ↔
      r ∈ jobFindAll [JobRow.mk 1 "j1" (some 100) none "c1"] (some "j")
        none none ∧
      r ∈ jobFindAll [JobRow.mk 1 "j1" (some 100) none "c1"] none
        (some 200) none) ∧
    (∀ r, r ∈ companyFindAll [CompanyRow.mk "c1" "C1" "d" (some 10) none]
        none (some 5) (some 20) ↔
      r ∈ companyFindAll [CompanyRow.mk "c1" "C1" "d" (some 10) none]
        none (some 5) none ∧
      r ∈ companyFindAll [CompanyRow.mk "c1" "C1" "d" (some 10) none]
        none none (some 20)) :=
  findAll_filter_conjunction [JobRow.mk 1 "j1" (some 100) none "c1"]
    [CompanyRow.mk "c1" "C1" "d" (some 10) none] "j" 200 "c" 5 20

/-- C7: the jobs finder with hasEquity true returns exactly the rows whose
equity is non-null and strictly positive; hasEquity false behaves exactly
like an absent hasEquity filter, so no row is excluded on account of
equity. -/
theorem jobFindAll_hasEquity (rows : List JobRow) (t : Option String)
    (m : Option ℚ) :
    jobFindAll rows none none (some true) =
      rows.filter (fun r => match r.equity with
        | some e => decide (0 < e)
        | none => false) ∧
    jobFindAll rows t m (some false) = jobFindAll rows t m none := by
  constructor
  · unfold jobFindAll
    apply List.filter_congr
    intro r _
    simp [jobMatches]
  · unfold jobFindAll
    apply List.filter_congr
    intro r _
    cases ht : (match t with
      | some s => containsCI r.title s
      | none => true : Bool) <;>
      simp [jobMatches, ht]

/-- C4: updating an existing record with a non-empty partial payload
changes exactly the supplied fields: an unsupplied field retains its prior
stored value, an explicit null clears a nullable field, a supplied value
replaces the stored one, id and company handle are unchanged, and the
returned record is exactly what a subsequent lookup reads back from the
post-update storage. -/
theorem jobUpdate_frame (store : List JobRow) (i : Int) (u : JobUpdateData)
    (r : JobRow) (hfind : findJob store i = some r)
    (hu : u.isEmpty = false) :
    ∃ r' store',
      jobUpdate store i u = (Except.ok r', store') ∧
      (u.title = none → r'.title = r.title) ∧
      (∀ v, u.title = some v → r'.title = v) ∧
      (u.salary = none → r'.salary = r.salary) ∧
      (u.salary = some none → r'.salary = none) ∧
      (∀ v, u.salary = some (some v) → r'.salary = some v) ∧
      (u.equity = none → r'.equity = r.equity) ∧
      (u.equity = some none → r'.equity = none) ∧
      (∀ v, u.equity = some (some v) → r'.equity = some v) ∧
      r'.id = r.id ∧ r'.companyHandle = r.companyHandle ∧
      findJob store' i = some r' := by
  refine ⟨applyJobUpdate u r,
    store.map fun x => if x.id = i then applyJobUpdate u r else x,
    ?_, ?_, ?_, ?_, ?_, ?_, ?_, ?_, ?_, ?_, ?_, ?_⟩
  · unfold jobUpdate
    rw [if_neg (by simp [hu]), hfind]
  · intro h
    simp [applyJobUpdate, h]
  · intro v h
    simp [applyJobUpdate, h]
  · intro h
    simp [applyJobUpdate, h]
  · intro h
    simp [applyJobUpdate, h]
  · intro v h
    simp [applyJobUpdate, h]
  · intro h
    simp [applyJobUpdate, h]
  · intro h
    simp [applyJobUpdate, h]
  · intro v h
    simp [applyJobUpdate, h]
  · simp [applyJobUpdate]
  · simp [applyJobUpdate]
  · exact findJob_replace _ hfind
      (by simp [applyJobUpdate, findJob_id_eq hfind])

/-- Witness for C4 at a concrete store: updating job 1 with a new title and
explicit nulls for salary and equity. -/
theorem jobUpdate_frame_witness :
    ∃ r' store',
      jobUpdate [JobRow.mk 1 "j1" (some 100000) (some (1 / 2)) "c1"] 1
          (JobUpdateData.mk (some "new") (some none) (some none)) =
        (Except.ok r', store') ∧
      ((JobUpdateData.mk (some "new") (some none) (some none)).title = none →
        r'.title = (JobRow.mk 1 "j1" (some 100000) (some (1 / 2)) "c1").title) ∧
      (∀ v, (JobUpdateData.mk (some "new") (some none) (some none)).title =
          some v → r'.title = v) ∧
      ((JobUpdateData.mk (some "new") (some none) (some none)).salary = none →
        r'.salary =
          (JobRow.mk 1 "j1" (some 100000) (some (1 / 2)) "c1").salary) ∧
      ((JobUpdateData.mk (some "new") (some none) (some none)).salary =
          some none → r'.salary = none) ∧
      (∀ v, (JobUpdateData.mk (some "new") (some none) (some none)).salary =
          some (some v) → r'.salary = some v) ∧
      ((JobUpdateData.mk (some "new") (some none) (some none)).equity = none →
        r'.equity =
          (JobRow.mk 1 "j1" (some 100000) (some (1 / 2)) "c1").equity) ∧
      ((JobUpdateData.mk (some "new") (some none) (some none)).equity =
          some none → r'.equity = none) ∧
      (∀ v, (JobUpdateData.mk (some "new") (some none) (some none)).equity =
          some (some v) → r'.equity = some v) ∧
      r'.id = (JobRow.mk 1 "j1" (some 100000) (some (1 / 2)) "c1").id ∧
      r'.companyHandle =
        (JobRow.mk 1 "j1" (some 100000) (some (1 / 2)) "c1").companyHandle ∧
      findJob store' 1 = some r' :=
  jobUpdate_frame [JobRow.mk 1 "j1" (some 100000) (some (1 / 2)) "c1"] 1
    (JobUpdateData.mk (some "new") (some none) (some none))
    (JobRow.mk 1 "j1" (some 100000) (some (1 / 2)) "c1") rfl rfl

/-- C5: get, update (with a non-empty payload) and remove on a key absent
from storage each fail with NotFound, and each leaves the stored state
unchanged, so the failure happens before any mutation. -/
theorem job_ops_notFound (store : List JobRow) (i : Int) (u : JobUpdateData)
    (h : findJob store i = none) (hu : u.isEmpty = false) :
    jobGet store i =
      (Except.error (ApiError.notFound ("No job: " ++ toString i)), store) ∧
    jobUpdate store i u =
      (Except.error (ApiError.notFound ("No job: " ++ toString i)), store) ∧
    jobRemove store i =
      (Except.error (ApiError.notFound ("No job: " ++ toString i)), store) := by
  refine ⟨?_, ?_, ?_⟩
  · unfold jobGet
    rw [h]
  · unfold jobUpdate
    rw [if_neg (by simp [hu]), h]
  · unfold jobRemove
    rw [h]

/-- Witness for C5 at a concrete store: key 0 is absent from a one-row
store, and all three operations fail NotFound leaving the store intact. -/
theorem job_ops_notFound_witness :
    jobGet [JobRow.mk 1 "j1" (some 100000) none "c1"] 0 =
      (Except.error (ApiError.notFound ("No job: " ++ toString (0 : Int))),
        [JobRow.mk 1 "j1" (some 100000) none "c1"]) ∧
    jobUpdate [JobRow.mk 1 "j1" (some 100000) none "c1"] 0
        (JobUpdateData.mk (some "new") none none) =
      (Except.error (ApiError.notFound ("No job: " ++ toString (0 : Int))),
        [JobRow.mk 1 "j1" (some 100000) none "c1"]) ∧
    jobRemove [JobRow.mk 1 "j1" (some 100000) none "c1"] 0 =
      (Except.error (ApiError.notFound ("No job: " ++ toString (0 : Int))),
        [JobRow.mk 1 "j1" (some 100000) none "c1"]) :=
  job_ops_notFound [JobRow.mk 1 "j1" (some 100000) none "c1"] 0
    (JobUpdateData.mk (some "new") none none) rfl rfl
